import Mathlib

/-!
Shallow embedding of the openclaw-webex messaging adapter (TypeScript) in
Lean 4, covering the outbound send pipeline (src/send.ts), the inbound
webhook pipeline (src/webhook.ts) and the channel facade (src/channel.ts),
together with theorems settling the specification claims.

Modelling conventions:
* JavaScript strings are Lean Strings; Node Buffers are lists of byte
  values (List Nat, each < 256 by construction).
* JavaScript truthiness on optional strings (undefined and the empty
  string are falsy) is made explicit through the function jsTruthy.
* Fallible code returns Except; a thrown JS exception is the .error case.
* The Node crypto primitives used by the code (HMAC-SHA1, hex digest,
  crypto.timingSafeEqual) are implemented concretely below, bit-faithful
  to RFC 3174 / RFC 2104, over Nat with explicit reduction mod 2^32.
* Network calls (node-fetch) are external collaborators and are passed in
  as explicit executor/fetch oracles.
* JavaScript floating-point arithmetic in the backoff computation is
  modelled over the rationals.
-/

namespace OpenClawWebex

/-- Truthiness of an optional JS string: undefined and the empty string
are falsy, every other string is truthy. -/
def jsTruthy : Option String → Bool
  | none => false
  | some s => s ≠ ""

/-- Truthiness of the JS expression xs?.length for an optional array:
falsy when the array is absent or empty. -/
def jsLenTruthy {α : Type} : Option (List α) → Bool
  | none => false
  | some xs => xs.length ≠ 0

/-- Membership test on lists, mirroring JS Array.prototype.includes for
decidable element types. -/
def jsArrayIncludes {α : Type} [DecidableEq α] (xs : List α) (a : α) : Bool :=
  xs.contains a

/-- Substring occurrence on element lists, mirroring JS
String.prototype.includes (also used for Buffer byte scans). -/
def listIncludes {α : Type} [DecidableEq α] (needle : List α) : List α → Bool
  | [] => needle.isEmpty
  | c :: rest => needle.isPrefixOf (c :: rest) || listIncludes needle rest

/-- Occurrence of a substring in a JS string, by code points. -/
def strIncludes (hay needle : String) : Bool :=
  listIncludes needle.data hay.data

/-- JS String.prototype.startsWith, by code points. -/
def jsStartsWith (s p : String) : Bool :=
  p.data.isPrefixOf s.data

/-! ### UTF-8 encoding (Buffer.from(s, 'utf8') and Buffer.byteLength) -/

/-- UTF-8 encoding of a single Unicode code point as its byte sequence. -/
def utf8EncodeChar (c : Nat) : List Nat :=
  if c < 0x80 then [c]
  else if c < 0x800 then
    [0xC0 ||| (c >>> 6), 0x80 ||| (c &&& 0x3F)]
  else if c < 0x10000 then
    [0xE0 ||| (c >>> 12), 0x80 ||| ((c >>> 6) &&& 0x3F), 0x80 ||| (c &&& 0x3F)]
  else
    [0xF0 ||| (c >>> 18), 0x80 ||| ((c >>> 12) &&& 0x3F),
     0x80 ||| ((c >>> 6) &&& 0x3F), 0x80 ||| (c &&& 0x3F)]

/-- UTF-8 bytes of a list of characters. -/
def utf8BytesAux : List Char → List Nat
  | [] => []
  | c :: cs => utf8EncodeChar c.toNat ++ utf8BytesAux cs

/-- UTF-8 bytes of a JS string, as produced by Buffer.from(s, 'utf8'). -/
def utf8Bytes (s : String) : List Nat :=
  utf8BytesAux s.data

/-- Byte length of a string in UTF-8, as computed by
Buffer.byteLength(s, 'utf8'). -/
def bufferByteLength (s : String) : Nat :=
  (utf8Bytes s).length

/-! ### Hex encoding (Node digest('hex')) -/

/-- Lower-case hex digit for a value below 16. -/
def hexDigit (n : Nat) : Char :=
  if n < 10 then Char.ofNat (48 + n) else Char.ofNat (87 + n)

/-- Hex character pairs for a byte list. -/
def hexEncodeList : List Nat → List Char
  | [] => []
  | b :: bs => hexDigit ((b / 16) % 16) :: hexDigit (b % 16) :: hexEncodeList bs

/-- Lower-case hex string of a byte list, as produced by Node
hmac.digest('hex'). -/
def hexEncode (bs : List Nat) : String :=
  String.mk (hexEncodeList bs)

/-! ### Base64 decoding (Node Buffer.from(s, 'base64')) -/

/-- Value of one base64 alphabet character; characters outside the
alphabet (including padding and whitespace) yield none and are skipped,
matching Node's forgiving decoder, which also accepts the url-safe
alphabet. -/
def b64Val (c : Char) : Option Nat :=
  let n := c.toNat
  if 65 ≤ n ∧ n ≤ 90 then some (n - 65)
  else if 97 ≤ n ∧ n ≤ 122 then some (n - 97 + 26)
  else if 48 ≤ n ∧ n ≤ 57 then some (n - 48 + 52)
  else if c = '+' ∨ c = '-' then some 62
  else if c = '/' ∨ c = '_' then some 63
  else none

/-- Byte reassembly from 6-bit groups: full quadruples give three bytes,
a trailing triple two bytes, a trailing pair one byte. -/
def base64DecodeVals : List Nat → List Nat
  | a :: b :: c :: d :: rest =>
      (a * 4 + b / 16) :: ((b % 16) * 16 + c / 4) :: ((c % 4) * 64 + d) ::
        base64DecodeVals rest
  | [a, b, c] => [a * 4 + b / 16, (b % 16) * 16 + c / 4]
  | [a, b] => [a * 4 + b / 16]
  | _ => []

/-- Bytes of Buffer.from(s, 'base64'): decode after dropping characters
outside the alphabet. Node's decoder never throws, so the source's catch
branch around it is dead code. -/
def base64Decode (s : String) : List Nat :=
  base64DecodeVals (s.data.filterMap b64Val)

/-! ### SHA-1 and HMAC-SHA1 (Node crypto.createHmac('sha1', secret)) -/

/-- Reduction of a Nat to a 32-bit word. -/
def w32 (x : Nat) : Nat := x % 4294967296

/-- Left rotation of a 32-bit word by n bits. -/
def rotl32 (n x : Nat) : Nat :=
  (((x <<< n) % 4294967296) ||| (x >>> (32 - n)))

/-- Big-endian bytes of a 32-bit word. -/
def word32ToBytesBE (x : Nat) : List Nat :=
  [(x >>> 24) % 256, (x >>> 16) % 256, (x >>> 8) % 256, x % 256]

/-- Big-endian 8-byte encoding of a length in bits. -/
def word64ToBytesBE (x : Nat) : List Nat :=
  [(x >>> 56) % 256, (x >>> 48) % 256, (x >>> 40) % 256, (x >>> 32) % 256,
   (x >>> 24) % 256, (x >>> 16) % 256, (x >>> 8) % 256, x % 256]

/-- SHA-1 message padding: append 0x80, zero bytes up to 56 mod 64, then
the 64-bit big-endian bit length. -/
def sha1Pad (msg : List Nat) : List Nat :=
  let z := (64 - ((msg.length + 9) % 64)) % 64
  msg ++ [0x80] ++ List.replicate z 0 ++ word64ToBytesBE (8 * msg.length)

/-- Grouping of a byte list into big-endian 32-bit words. -/
def bytesToWordsBE : List Nat → List Nat
  | a :: b :: c :: d :: rest =>
      (a * 16777216 + b * 65536 + c * 256 + d) :: bytesToWordsBE rest
  | _ => []

/-- Splitting of a (padded) byte list into 64-byte blocks. -/
def toBlocks (l : List Nat) : List (List Nat) :=
  if h : l = [] then []
  else l.take 64 :: toBlocks (l.drop 64)
termination_by l.length
decreasing_by
  simp only [List.length_drop]
  have : l.length ≠ 0 := fun hz => h (List.eq_nil_of_length_eq_zero hz)
  omega

/-- SHA-1 message-schedule extension: the accumulator holds the words
produced so far in reverse order; each step appends
rotl1 (w(t-3) xor w(t-8) xor w(t-14) xor w(t-16)). -/
def sha1Extend (acc : List Nat) : Nat → List Nat
  | 0 => acc
  | k + 1 =>
      sha1Extend
        (rotl32 1 ((acc.getD 2 0) ^^^ (acc.getD 7 0) ^^^
                   (acc.getD 13 0) ^^^ (acc.getD 15 0)) :: acc) k

/-- Eighty-entry message schedule of one SHA-1 block (given as 16 words). -/
def sha1Schedule (ws : List Nat) : List Nat :=
  (sha1Extend ws.reverse 64).reverse

/-- One SHA-1 compression round; i is the round index, the state is
(a, b, c, d, e). -/
def sha1Round (i wi : Nat) : Nat × Nat × Nat × Nat × Nat → Nat × Nat × Nat × Nat × Nat
  | (a, b, c, d, e) =>
    let f :=
      if i < 20 then (b &&& c) ||| ((b ^^^ 0xFFFFFFFF) &&& d)
      else if i < 40 then b ^^^ c ^^^ d
      else if i < 60 then (b &&& c) ||| (b &&& d) ||| (c &&& d)
      else b ^^^ c ^^^ d
    let k :=
      if i < 20 then 0x5A827999
      else if i < 40 then 0x6ED9EBA1
      else if i < 60 then 0x8F1BBCDC
      else 0xCA62C1D6
    (w32 (rotl32 5 a + f + e + k + wi), a, rotl32 30 b, c, d)

/-- Iteration of the 80 SHA-1 rounds over the message schedule. -/
def sha1Rounds : List Nat → Nat → Nat × Nat × Nat × Nat × Nat → Nat × Nat × Nat × Nat × Nat
  | [], _, st => st
  | wi :: rest, i, st => sha1Rounds rest (i + 1) (sha1Round i wi st)

/-- Processing of one 64-byte block into the running hash state. -/
def sha1Block (h : Nat × Nat × Nat × Nat × Nat) (block : List Nat) :
    Nat × Nat × Nat × Nat × Nat :=
  let (h0, h1, h2, h3, h4) := h
  let (a, b, c, d, e) := sha1Rounds (sha1Schedule (bytesToWordsBE block)) 0 (h0, h1, h2, h3, h4)
  (w32 (h0 + a), w32 (h1 + b), w32 (h2 + c), w32 (h3 + d), w32 (h4 + e))

/-- SHA-1 core: the five 32-bit state words after processing the padded
message. -/
def sha1Core (msg : List Nat) : Nat × Nat × Nat × Nat × Nat :=
  (toBlocks (sha1Pad msg)).foldl sha1Block
    (0x67452301, 0xEFCDAB89, 0x98BADCFE, 0x10325476, 0xC3D2E1F0)

/-- SHA-1 digest of a byte list: twenty bytes. -/
def sha1 (msg : List Nat) : List Nat :=
  let (h0, h1, h2, h3, h4) := sha1Core msg
  word32ToBytesBE h0 ++ word32ToBytesBE h1 ++ word32ToBytesBE h2 ++
    word32ToBytesBE h3 ++ word32ToBytesBE h4

/-- HMAC-SHA1 (RFC 2104) of a message under a key, with the SHA-1 block
size of 64 bytes, as computed by Node crypto.createHmac('sha1', key). -/
def hmacSha1 (key msg : List Nat) : List Nat :=
  let key1 := if key.length > 64 then sha1 key else key
  let key0 := key1 ++ List.replicate (64 - key1.length) 0
  let ipad := key0.map (fun b => b ^^^ 0x36)
  let opad := key0.map (fun b => b ^^^ 0x5C)
  sha1 (opad ++ sha1 (ipad ++ msg))

/-- Exception values thrown by the modelled Node primitives. -/
inductive JsError where
  /-- RangeError thrown by crypto.timingSafeEqual on buffers of unequal
  byte length. -/
  | rangeError : JsError
  deriving DecidableEq, Repr

/-- Model of crypto.timingSafeEqual: throws a RangeError when the two
buffers differ in length, otherwise reports byte equality (the
constant-time aspect is not observable in this embedding). -/
def timingSafeEqual (a b : List Nat) : Except JsError Bool :=
  if a.length ≠ b.length then .error .rangeError
  else .ok (a == b)

/-! ### Data model (src/types.ts) -/

/-- Direct-message policy values of the DmPolicy union type. -/
inductive DmPolicy where
  | allow | deny | allowlisted | allowlist | pairing
  deriving DecidableEq, Repr

/-- Room/conversation type of a Webex room or message. -/
inductive RoomType where
  | direct | group
  deriving DecidableEq, Repr

/-- Webhook resource values of the WebexWebhookResource union type. -/
inductive WebexWebhookResource where
  | messages | memberships | rooms | attachmentActions | meetings | recordings
  deriving DecidableEq, Repr

/-- Webhook event values of the WebexWebhookEvent union type. -/
inductive WebexWebhookEvent where
  | created | updated | deleted | started | ended
  deriving DecidableEq, Repr

/-- Per-account channel configuration (WebexChannelConfig). Optional
TypeScript fields are Options; the required string fields may still be
empty at runtime, which the config validation treats as absent. -/
structure WebexChannelConfig where
  token : String
  webhookUrl : String
  dmPolicy : DmPolicy
  allowFrom : Option (List String) := none
  webhookSecret : Option String := none
  apiBaseUrl : Option String := none
  maxRetries : Option Nat := none
  retryDelayMs : Option Nat := none
  deriving DecidableEq, Repr

/-- Adaptive card payload (AdaptiveCard). The body and action blocks are
opaque JSON values downstream; they are modelled as opaque strings. -/
structure AdaptiveCard where
  version : String
  body : List String := []
  actions : Option (List String) := none
  deriving DecidableEq, Repr

/-- Card attachment on a Webex message (WebexAttachment); the contentType
is the fixed adaptive-card media type and is left implicit. -/
structure WebexAttachment where
  content : AdaptiveCard
  deriving DecidableEq, Repr

/-- Full Webex message resource (WebexMessage). -/
structure WebexMessage where
  id : String
  roomId : String
  roomType : RoomType
  toPersonId : Option String := none
  toPersonEmail : Option String := none
  text : Option String := none
  markdown : Option String := none
  html : Option String := none
  files : Option (List String) := none
  personId : String
  personEmail : String
  mentionedPeople : Option (List String) := none
  mentionedGroups : Option (List String) := none
  attachments : Option (List WebexAttachment) := none
  created : String
  updated : Option String := none
  parentId : Option String := none
  deriving DecidableEq, Repr

/-- Identifier-only data block of a webhook notification
(WebexWebhookData). -/
structure WebexWebhookData where
  id : String
  roomId : String
  roomType : RoomType
  personId : String
  personEmail : String
  created : String
  mentionedPeople : Option (List String) := none
  mentionedGroups : Option (List String) := none
  files : Option (List String) := none
  deriving DecidableEq, Repr

/-- Inbound webhook notification payload (WebexWebhookPayload). -/
structure WebexWebhookPayload where
  id : String
  name : String
  targetUrl : String
  resource : WebexWebhookResource
  event : WebexWebhookEvent
  filter : Option String := none
  orgId : String
  createdBy : String
  appId : String
  ownedBy : String
  status : String
  created : String
  actorId : String
  data : WebexWebhookData
  deriving DecidableEq, Repr

/-- Wire shape of a message-creation request (CreateMessageRequest); an
empty record models the freshly constructed {} object. -/
structure CreateMessageRequest where
  roomId : Option String := none
  toPersonId : Option String := none
  toPersonEmail : Option String := none
  text : Option String := none
  markdown : Option String := none
  files : Option (List String) := none
  attachments : Option (List WebexAttachment) := none
  parentId : Option String := none
  deriving DecidableEq, Repr

/-- Content block of a generic outbound message. -/
structure OutboundContent where
  text : Option String := none
  markdown : Option String := none
  files : Option (List String) := none
  card : Option AdaptiveCard := none
  deriving DecidableEq, Repr

/-- Generic outbound message (OpenClawOutboundMessage); the target field
is named to in the source, which is a reserved word here. -/
structure OpenClawOutboundMessage where
  to_ : String
  content : OutboundContent
  parentId : Option String := none
  deriving DecidableEq, Repr

/-- Typed attachment of a normalized envelope (OpenClawAttachment). -/
inductive AttachmentType where
  | file | card
  deriving DecidableEq, Repr

/-- Attachment entry pushed during normalization. -/
structure OpenClawAttachment where
  type : AttachmentType
  url : Option String := none
  content : Option AdaptiveCard := none
  deriving DecidableEq, Repr

/-- Author block of a normalized envelope. -/
structure OpenClawAuthor where
  id : String
  email : Option String := none
  displayName : Option String := none
  isBot : Bool
  deriving DecidableEq, Repr

/-- Content block of a normalized envelope. -/
structure OpenClawContent where
  text : Option String := none
  markdown : Option String := none
  attachments : Option (List OpenClawAttachment) := none
  deriving DecidableEq, Repr

/-- Metadata block of a normalized envelope; raw retains the fetched
provider message. -/
structure OpenClawMetadata where
  roomType : RoomType
  roomId : String
  timestamp : String
  mentions : Option (List String) := none
  parentId : Option String := none
  raw : WebexMessage
  deriving DecidableEq, Repr

/-- Normalized inbound envelope (OpenClawEnvelope); the channel tag is a
string and is always populated with "webex" by the normalizer. -/
structure OpenClawEnvelope where
  id : String
  channel : String
  conversationId : String
  author : OpenClawAuthor
  content : OpenClawContent
  metadata : OpenClawMetadata
  deriving DecidableEq, Repr

/-! ### Outbound send pipeline (src/send.ts, class WebexSender) -/

/-- Transient HTTP status codes that trigger a retry
(RETRY_STATUS_CODES in src/send.ts). -/
def RETRY_STATUS_CODES : List Nat := [429, 502, 503, 504]

/-- Errors surfaced by the send pipeline: a typed Webex API error
(WebexApiRequestError, carrying the numeric status code) or a plain JS
Error identified by its message (network failures carry ECONNRESET,
ETIMEDOUT or ENOTFOUND in the message). -/
inductive SenderError where
  | api (statusCode : Nat) (message : String) (trackingId : Option String := none)
  | generic (message : String)
  deriving DecidableEq, Repr

/-- Decidable equality of Except results, for evaluating concrete
executor outcomes. -/
instance {ε α : Type} [DecidableEq ε] [DecidableEq α] : DecidableEq (Except ε α) :=
  fun x y =>
    match x, y with
    | .ok a, .ok b =>
        if h : a = b then isTrue (by rw [h])
        else isFalse (fun hc => h (by injection hc))
    | .error e, .error f =>
        if h : e = f then isTrue (by rw [h])
        else isFalse (fun hc => h (by injection hc))
    | .ok _, .error _ => isFalse (fun hc => by injection hc)
    | .error _, .ok _ => isFalse (fun hc => by injection hc)

/-- WebexSender.buildMessageRequest: builds the provider request from a
generic outbound message. Target disambiguation inspects the to field;
content fields are copied under JS truthiness, with content.text written
to the request markdown field and content.markdown overwriting it. The
base64 decoding by Buffer.from(to, 'base64') is total in Node, so the
catch branch of the source (decode failure, defaulting to roomId) is
unreachable in this model. -/
def buildMessageRequest (message : OpenClawOutboundMessage) : CreateMessageRequest :=
  let target := message.to_
  let req0 : CreateMessageRequest := {}
  let req1 :=
    if strIncludes target "@" then { req0 with toPersonEmail := some target }
    else if jsStartsWith target "Y2lzY29zcGFyazovL3" then
      let decoded := base64Decode target
      if listIncludes (utf8Bytes "/ROOM/") decoded then { req0 with roomId := some target }
      else if listIncludes (utf8Bytes "/PEOPLE/") decoded then { req0 with toPersonId := some target }
      else { req0 with roomId := some target }
    else { req0 with roomId := some target }
  let req2 := if jsTruthy message.content.text then { req1 with markdown := message.content.text } else req1
  let req3 := if jsTruthy message.content.markdown then { req2 with markdown := message.content.markdown } else req2
  let req4 :=
    match message.content.files with
    | some (f :: _) => { req3 with files := some [f] }
    | _ => req3
  let req5 :=
    match message.content.card with
    | some card => { req4 with attachments := some [{ content := card }] }
    | none => req4
  if jsTruthy message.parentId then { req5 with parentId := message.parentId } else req5

/-- WebexSender.validateMessageRequest: target present, content present,
and the text field at most 7439 UTF-8 bytes; a violation throws an Error
with the corresponding message. -/
def validateMessageRequest (request : CreateMessageRequest) : Except String Unit :=
  if ¬(jsTruthy request.roomId || jsTruthy request.toPersonId || jsTruthy request.toPersonEmail) then
    .error "Message must have a target: roomId, toPersonId, or toPersonEmail"
  else if ¬(jsTruthy request.text || jsTruthy request.markdown ||
            jsLenTruthy request.files || jsLenTruthy request.attachments) then
    .error "Message must have content: text, markdown, files, or attachments"
  else if jsTruthy request.text &&
          decide (bufferByteLength (request.text.getD "") > 7439) then
    .error "Message text exceeds maximum size of 7439 bytes"
  else
    .ok ()

/-- WebexSender.shouldRetry: retry on the fixed transient status codes
for typed API errors, and on network-level failures identified by the
error message for plain Errors. -/
def shouldRetry : SenderError → Bool
  | .api statusCode _ _ => jsArrayIncludes RETRY_STATUS_CODES statusCode
  | .generic message =>
      strIncludes message "ECONNRESET" || strIncludes message "ETIMEDOUT" ||
        strIncludes message "ENOTFOUND"

/-- WebexSender.request retry loop. The executor oracle maps the
zero-based call index to the outcome of that network attempt; the second
component of the result counts executor calls. attempt mirrors the JS
counter (number of failures so far); the loop body always runs at least
once, so the source's fallback Error('Request failed after retries') is
unreachable. -/
def requestGo {α : Type} (exec : Nat → Except SenderError α) (maxRetries : Nat)
    (attempt calls : Nat) : Except SenderError α × Nat :=
  match exec calls with
  | .ok a => (.ok a, calls + 1)
  | .error e =>
      if h : attempt + 1 > maxRetries then (.error e, calls + 1)
      else if shouldRetry e then
        requestGo exec maxRetries (attempt + 1) (calls + 1)
      else (.error e, calls + 1)
termination_by maxRetries - attempt
decreasing_by omega

/-- WebexSender.request with the counters at their initial values. -/
def request {α : Type} (exec : Nat → Except SenderError α) (maxRetries : Nat) :
    Except SenderError α × Nat :=
  requestGo exec maxRetries 0 0

/-- WebexSender.createMessage: validation first (a validation error
throws before any network call), then the retried POST /messages. -/
def createMessage (request0 : CreateMessageRequest) (maxRetries : Nat)
    (exec : Nat → Except SenderError WebexMessage) :
    Except SenderError WebexMessage × Nat :=
  match validateMessageRequest request0 with
  | .error e => (.error (.generic e), 0)
  | .ok _ => request exec maxRetries

/-- WebexSender.send: build the provider request, then create the
message. -/
def send (message : OpenClawOutboundMessage) (maxRetries : Nat)
    (exec : Nat → Except SenderError WebexMessage) :
    Except SenderError WebexMessage × Nat :=
  createMessage (buildMessageRequest message) maxRetries exec

/-- WebexSender.sendToRoom: request shape built by the room helper,
which populates the text field directly. -/
def sendToRoomRequest (roomId text : String) (markdown : Option String) :
    CreateMessageRequest :=
  { roomId := some roomId, text := some text, markdown := markdown }

/-- WebexSender.calculateBackoff over the rationals: rand models the
Math.random() draw in [0, 1); attempt is the 1-indexed retry number. -/
def calculateBackoff (retryDelayMs : ℚ) (attempt : Nat) (rand : ℚ) : ℚ :=
  let baseDelay := retryDelayMs
  let exponentialDelay := baseDelay * 2 ^ (attempt - 1)
  let jitter := rand * (3 / 10) * exponentialDelay
  min (exponentialDelay + jitter) 30000

/-! ### Inbound webhook pipeline (src/webhook.ts, class WebexWebhookHandler) -/

/-- WebexWebhookHandler.verifySignature. The JSON serialization
Buffer.from(JSON.stringify(payload)) is external library behaviour and is
passed in as the payloadJson byte list; originalBody models the optional
raw-body Buffer argument. An absent or empty secret short-circuits to
true (JS falsiness of this.config.webhookSecret); otherwise the supplied
signature is compared with the hex HMAC-SHA1 of the body by
crypto.timingSafeEqual, whose RangeError on length mismatch escapes. -/
def verifySignature (cfg : WebexChannelConfig) (payloadJson : List Nat)
    (signature : String) (originalBody : Option (List Nat)) : Except JsError Bool :=
  match cfg.webhookSecret with
  | none => .ok true
  | some secret =>
      if secret = "" then .ok true
      else
        let body := originalBody.getD payloadJson
        let expectedSignature := hexEncode (hmacSha1 (utf8Bytes secret) body)
        timingSafeEqual (utf8Bytes signature) (utf8Bytes expectedSignature)

/-- WebexWebhookHandler.isAllowedSender: DM-policy evaluation for the
sender of a notification. The switch default (reached for the allowlist
and pairing values of the union type) denies. -/
def isAllowedSender (cfg : WebexChannelConfig) (data : WebexWebhookData) : Bool :=
  match cfg.dmPolicy with
  | .allow => true
  | .deny => false
  | .allowlisted =>
      match cfg.allowFrom with
      | none => false
      | some allowFrom =>
          if allowFrom.length = 0 then false
          else jsArrayIncludes allowFrom data.personId ||
            jsArrayIncludes allowFrom data.personEmail
  | _ => false

/-- WebexWebhookHandler.normalizeMessage: mapping of a fetched Webex
message into the normalized envelope, converting file URLs and card
attachments into typed attachment entries. -/
def normalizeMessage (message : WebexMessage) : OpenClawEnvelope :=
  let fileAttachments :=
    (message.files.getD []).map fun fileUrl =>
      ({ type := .file, url := some fileUrl } : OpenClawAttachment)
  let cardAttachments :=
    (message.attachments.getD []).map fun attachment =>
      ({ type := .card, content := some attachment.content } : OpenClawAttachment)
  let attachments := fileAttachments ++ cardAttachments
  { id := message.id
    channel := "webex"
    conversationId := message.roomId
    author :=
      { id := message.personId
        email := some message.personEmail
        displayName := none
        isBot := false }
    content :=
      { text := message.text
        markdown := message.markdown
        attachments := if attachments.length > 0 then some attachments else none }
    metadata :=
      { roomType := message.roomType
        roomId := message.roomId
        timestamp := message.created
        mentions := message.mentionedPeople
        parentId := message.parentId
        raw := message } }

/-- WebexWebhookHandler.handleWebhook. botId is the cached own identity
(null before initialization); fetchMessage is the GET /messages/{id}
network oracle. The source signature takes only the payload: callers that
pass a signature argument have it silently dropped, and verifySignature
is never consulted here. -/
def handleWebhook (cfg : WebexChannelConfig) (botId : Option String)
    (fetchMessage : String → Except String WebexMessage)
    (payload : WebexWebhookPayload) : Except String (Option OpenClawEnvelope) :=
  if payload.resource ≠ .messages ∨ payload.event ≠ .created then .ok none
  else if some payload.data.personId = botId then .ok none
  else if payload.data.roomType = .direct ∧ ¬ isAllowedSender cfg payload.data then .ok none
  else
    match fetchMessage payload.data.id with
    | .error e => .error e
    | .ok message => .ok (some (normalizeMessage message))

/-! ### Channel facade (src/channel.ts, class WebexChannel) -/

/-- Default configuration values merged during initialization
(DEFAULT_CONFIG in src/channel.ts). -/
def DEFAULT_API_BASE_URL : String := "https://webexapis.com/v1"

/-- Mutable state of a WebexChannel instance; H is the type of registered
message handlers (subscribers). The sender is modelled by the
configuration it was constructed with; the webhook handler by its
configuration paired with its cached bot id. -/
structure WebexChannelState (H : Type) where
  config : Option WebexChannelConfig := none
  sender : Option WebexChannelConfig := none
  webhookHandler : Option (WebexChannelConfig × Option String) := none
  messageHandlers : List H := []
  initialized : Bool := false

/-- Error message thrown by WebexChannel.ensureInitialized. -/
def notInitializedMsg : String :=
  "Webex channel is not initialized. Call initialize() first."

/-- WebexChannel.ensureInitialized as a Boolean guard: true exactly when
no operational method would throw. -/
def ensureInitialized {H : Type} (st : WebexChannelState H) : Bool :=
  st.initialized && st.config.isSome && st.sender.isSome && st.webhookHandler.isSome

/-- WebexChannel.validateConfig. URL syntax checking by the JS URL
constructor is external and passed in as the isValidUrl oracle; the JS
check on a missing dmPolicy value cannot fire in this typed model. -/
def validateConfig (isValidUrl : String → Bool) (config : WebexChannelConfig) :
    Except String Unit :=
  if config.token = "" then
    .error "Webex channel config requires a token"
  else if config.webhookUrl = "" then
    .error "Webex channel config requires a webhookUrl"
  else if config.dmPolicy = .allowlisted ∧ (config.allowFrom.getD []).length = 0 then
    .error "Webex channel config requires allowFrom when dmPolicy is \x22allowlisted\x22"
  else if ¬ isValidUrl config.webhookUrl then
    .error "Webex channel config webhookUrl must be a valid URL"
  else .ok ()

/-- Spread merge of DEFAULT_CONFIG with the supplied config: the optional
fields fall back to their defaults when absent. -/
def mergeDefaults (config : WebexChannelConfig) : WebexChannelConfig :=
  { config with
    apiBaseUrl := some (config.apiBaseUrl.getD DEFAULT_API_BASE_URL)
    maxRetries := some (config.maxRetries.getD 3)
    retryDelayMs := some (config.retryDelayMs.getD 1000) }

/-- WebexChannel.initialize. getBotInfo is the GET /people/me oracle run
by the webhook handler's own initialize; when it throws, the exception
propagates with the partially updated state retained (config and sender
already assigned, initialized still false), exactly as in the source. The
second component is the propagated error, if any. -/
def initializeChannel {H : Type} (isValidUrl : String → Bool)
    (getBotInfo : Except String String) (st : WebexChannelState H)
    (config : WebexChannelConfig) : WebexChannelState H × Option String :=
  match validateConfig isValidUrl config with
  | .error e => (st, some e)
  | .ok _ =>
      let merged := mergeDefaults config
      let st1 := { st with
        config := some merged
        sender := some merged
        webhookHandler := some (merged, none) }
      match getBotInfo with
      | .error e => (st1, some e)
      | .ok botId =>
          ({ st1 with webhookHandler := some (merged, some botId), initialized := true },
           none)

/-- WebexChannel.shutdown: clears the subscriber list and drops all
component references, returning to the uninitialized state. -/
def shutdownChannel {H : Type} (st : WebexChannelState H) : WebexChannelState H :=
  { st with
    messageHandlers := []
    sender := none
    webhookHandler := none
    config := none
    initialized := false }

/-- WebexChannel.onMessage: appends a subscriber. -/
def onMessage {H : Type} (st : WebexChannelState H) (handler : H) : WebexChannelState H :=
  { st with messageHandlers := st.messageHandlers ++ [handler] }

/-- WebexChannel.send: guard then delegate to the sender, whose retry
budget comes from its construction (config.maxRetries ?? 3). -/
def channelSend {H : Type} (st : WebexChannelState H)
    (message : OpenClawOutboundMessage)
    (exec : Nat → Except SenderError WebexMessage) :
    Except String (Except SenderError WebexMessage × Nat) :=
  if ensureInitialized st then
    match st.sender with
    | some cfg => .ok (send message (cfg.maxRetries.getD 3) exec)
    | none => .error notInitializedMsg
  else .error notInitializedMsg

/-- WebexChannel.handleWebhook: guard, delegate to the webhook handler —
the signature argument is forwarded but the handler's parameter list does
not receive it — then notify every registered subscriber on a non-null
envelope. The second result component lists the subscribers invoked. -/
def channelHandleWebhook {H : Type} (st : WebexChannelState H)
    (payload : WebexWebhookPayload) (signature : Option String)
    (fetchMessage : String → Except String WebexMessage) :
    Except String (Option OpenClawEnvelope × List H) :=
  if ensureInitialized st then
    match st.webhookHandler with
    | some (cfg, botId) =>
        match handleWebhook cfg botId fetchMessage payload with
        | .error e => .error e
        | .ok (some envelope) => .ok (some envelope, st.messageHandlers)
        | .ok none => .ok (none, [])
    | none => .error notInitializedMsg
  else .error notInitializedMsg

/-- WebexChannel.registerWebhooks: guard then delegate to the webhook
handler's network interaction, abstracted as an oracle for the
list/delete/create sequence. -/
def channelRegisterWebhooks {H : Type} (st : WebexChannelState H)
    (run : Except String (List String)) : Except String (List String) :=
  if ensureInitialized st then run else .error notInitializedMsg

/-- WebexChannel.getSender: guard then return the sender (modelled by its
configuration). -/
def getSender {H : Type} (st : WebexChannelState H) :
    Except String WebexChannelConfig :=
  if ensureInitialized st then
    match st.sender with
    | some cfg => .ok cfg
    | none => .error notInitializedMsg
  else .error notInitializedMsg

/-- WebexChannel.getWebhookHandler: guard then return the webhook handler
(modelled by its configuration and cached bot id). -/
def getWebhookHandler {H : Type} (st : WebexChannelState H) :
    Except String (WebexChannelConfig × Option String) :=
  if ensureInitialized st then
    match st.webhookHandler with
    | some handler => .ok handler
    | none => .error notInitializedMsg
  else .error notInitializedMsg

/-! ### Concrete sample values used by the closed theorems below -/

/-- Sample fetched Webex message, mirroring the repository's test
fixture. -/
def sampleMessage : WebexMessage :=
  { id := "message-123"
    roomId := "room-123"
    roomType := .group
    personId := "person-123"
    personEmail := "person@example.com"
    created := "2024-01-01T00:00:00.000Z" }

/-- Fetch oracle that always returns the sample message. -/
def sampleFetch : String → Except String WebexMessage :=
  fun _ => .ok sampleMessage

/-- Executor oracle that always succeeds with the sample message. -/
def okExec : Nat → Except SenderError WebexMessage :=
  fun _ => .ok sampleMessage

/-- Transient rate-limit error used by the concrete retry scenarios. -/
def transientError : SenderError := .api 429 "Too Many Requests" none

/-- Terminal client error used by the concrete retry scenarios. -/
def badRequestError : SenderError := .api 400 "Bad Request" none

/-- Executor failing transiently on the first two calls, then
succeeding. -/
def flaky2Exec : Nat → Except SenderError WebexMessage :=
  fun i => if i < 2 then .error transientError else .ok sampleMessage

/-- Executor failing transiently on the first five calls, then
succeeding. -/
def flaky5Exec : Nat → Except SenderError WebexMessage :=
  fun i => if i < 5 then .error transientError else .ok sampleMessage

/-- Executor always failing with a terminal client error. -/
def badRequestExec : Nat → Except SenderError WebexMessage :=
  fun _ => .error badRequestError

/-- Plain-text content of 7440 ASCII bytes, one over the provider
limit. -/
def longText : String := String.mk (List.replicate 7440 'a')

/-- Outbound message whose plain text exceeds the 7439-byte limit. -/
def oversizedMessage : OpenClawOutboundMessage :=
  { to_ := "room-1", content := { text := some longText } }

/-- Channel configuration with a webhook secret configured. -/
def cfgSecret : WebexChannelConfig :=
  { token := "test-token"
    webhookUrl := "https://example.com/webhook"
    dmPolicy := .allow
    webhookSecret := some "test-secret" }

/-- Initialized channel state for the secret-bearing configuration, with
the subscriber type instantiated at Nat. -/
def stReady : WebexChannelState Nat :=
  { config := some (mergeDefaults cfgSecret)
    sender := some (mergeDefaults cfgSecret)
    webhookHandler := some (mergeDefaults cfgSecret, some "bot-123")
    messageHandlers := []
    initialized := true }

/-- Sample messages/created notification from a group room, mirroring the
repository's test fixture. -/
def samplePayload : WebexWebhookPayload :=
  { id := "webhook-id"
    name := "Test Webhook"
    targetUrl := "https://example.com/webhook"
    resource := .messages
    event := .created
    orgId := "org-123"
    createdBy := "user-123"
    appId := "app-123"
    ownedBy := "creator"
    status := "active"
    created := "2024-01-01T00:00:00.000Z"
    actorId := "actor-123"
    data :=
      { id := "message-123"
        roomId := "room-123"
        roomType := .group
        personId := "person-123"
        personEmail := "person@example.com"
        created := "2024-01-01T00:00:00.000Z" } }

/-- Base64-encoded Webex room identifier (ciscospark://us/ROOM/abc123). -/
def roomIdB64 : String := "Y2lzY29zcGFyazovL3VzL1JPT00vYWJjMTIz"

/-- Base64-encoded Webex person identifier
(ciscospark://us/PEOPLE/xyz789). -/
def peopleIdB64 : String := "Y2lzY29zcGFyazovL3VzL1BFT1BMRS94eXo3ODk="

/-- Base64-encoded Webex identifier of another class
(ciscospark://us/MESSAGE/m1z). -/
def otherIdB64 : String := "Y2lzY29zcGFyazovL3VzL01FU1NBR0UvbTF6"

/-- Outbound message addressed to an email. -/
def emailTargetMessage : OpenClawOutboundMessage :=
  { to_ := "user@example.com", content := { text := some "hi" } }

/-- Outbound message addressed to an opaque room identifier. -/
def roomOpaqueMessage : OpenClawOutboundMessage :=
  { to_ := roomIdB64, content := { text := some "hi" } }

/-- Outbound message addressed to an opaque person identifier. -/
def peopleOpaqueMessage : OpenClawOutboundMessage :=
  { to_ := peopleIdB64, content := { text := some "hi" } }

/-- Outbound message addressed to an opaque identifier of another
class. -/
def otherOpaqueMessage : OpenClawOutboundMessage :=
  { to_ := otherIdB64, content := { text := some "hi" } }

/-- Outbound message addressed to a plain room identifier. -/
def plainTargetMessage : OpenClawOutboundMessage :=
  { to_ := "room-99", content := { text := some "hi" } }

/-- Channel state with one registered subscriber (identified as 7). -/
def stWithSub : WebexChannelState Nat :=
  { stReady with messageHandlers := [7] }

/-- Configuration denying direct messages. -/
def cfgDeny : WebexChannelConfig :=
  { token := "test-token"
    webhookUrl := "https://example.com/webhook"
    dmPolicy := .deny }

/-- Configuration allow-listing the sample sender by id. -/
def cfgAllowlisted : WebexChannelConfig :=
  { token := "test-token"
    webhookUrl := "https://example.com/webhook"
    dmPolicy := .allowlisted
    allowFrom := some ["person-123"] }

/-- Allow-listed configuration with an empty allow-list. -/
def cfgAllowlistedEmpty : WebexChannelConfig :=
  { token := "test-token"
    webhookUrl := "https://example.com/webhook"
    dmPolicy := .allowlisted
    allowFrom := some [] }

/-- Sample notification arriving from a direct conversation. -/
def directPayload : WebexWebhookPayload :=
  { samplePayload with data := { samplePayload.data with roomType := .direct } }

/-! ### Supporting lemmas -/

/-- ASCII code points encode to a single UTF-8 byte. -/
lemma utf8EncodeChar_ascii {c : Nat} (h : c < 128) : utf8EncodeChar c = [c] := by
  simp [utf8EncodeChar, h]

/-- Byte count of the UTF-8 encoding of a replicated ASCII character. -/
lemma utf8BytesAux_replicate (n : Nat) (c : Char) (h : c.toNat < 128) :
    (utf8BytesAux (List.replicate n c)).length = n := by
  induction n with
  | zero => simp [utf8BytesAux]
  | succ k ih =>
      simp only [List.replicate_succ, utf8BytesAux, List.length_append, ih,
        utf8EncodeChar_ascii h, List.length_singleton]
      omega

/-- Hex digits of values below 16 are ASCII. -/
lemma hexDigit_toNat_lt : ∀ n, n < 16 → (hexDigit n).toNat < 128 := by decide

/-- Character count of a hex encoding. -/
lemma hexEncodeList_length (bs : List Nat) :
    (hexEncodeList bs).length = 2 * bs.length := by
  induction bs with
  | nil => simp [hexEncodeList]
  | cons b bs ih => simp [hexEncodeList, ih]; ring

/-- UTF-8 byte count of a hex-encoded byte list: two ASCII characters per
byte. -/
lemma utf8Bytes_hexEncode_length (bs : List Nat) :
    (utf8Bytes (hexEncode bs)).length = 2 * bs.length := by
  have main : ∀ l : List Nat, (utf8BytesAux (hexEncodeList l)).length = 2 * l.length := by
    intro l
    induction l with
    | nil => simp [hexEncodeList, utf8BytesAux]
    | cons b bs ih =>
        have h1 : ((b / 16) % 16) < 16 := Nat.mod_lt _ (by omega)
        have h2 : (b % 16) < 16 := Nat.mod_lt _ (by omega)
        simp only [hexEncodeList, utf8BytesAux, List.length_append,
          utf8EncodeChar_ascii (hexDigit_toNat_lt _ h1),
          utf8EncodeChar_ascii (hexDigit_toNat_lt _ h2), ih,
          List.length_singleton, List.length_cons]
        simp
        ring
  simpa [utf8Bytes, hexEncode] using main bs

/-- Output of the SHA-1 digest is always twenty bytes. -/
lemma sha1_length (msg : List Nat) : (sha1 msg).length = 20 := by
  unfold sha1
  rcases sha1Core msg with ⟨h0, h1, h2, h3, h4⟩
  simp [word32ToBytesBE]

/-- Output of HMAC-SHA1 is always twenty bytes. -/
lemma hmacSha1_length (key msg : List Nat) : (hmacSha1 key msg).length = 20 := by
  unfold hmacSha1
  exact sha1_length _

/-- UTF-8 byte count of the hex-encoded HMAC-SHA1 digest: forty. -/
lemma expectedSignature_length (key msg : List Nat) :
    (utf8Bytes (hexEncode (hmacSha1 key msg))).length = 40 := by
  rw [utf8Bytes_hexEncode_length, hmacSha1_length]

section BuildLemmas

set_option maxHeartbeats 1000000

/-- Built requests never populate the text field: plain-text content is
written to the markdown field instead. -/
lemma buildMessageRequest_text_none (m : OpenClawOutboundMessage) :
    (buildMessageRequest m).text = none := by
  cases hat : strIncludes m.to_ "@" <;>
    cases hsw : jsStartsWith m.to_ "Y2lzY29zcGFyazovL3" <;>
    cases hroom : listIncludes (utf8Bytes "/ROOM/") (base64Decode m.to_) <;>
    cases hppl : listIncludes (utf8Bytes "/PEOPLE/") (base64Decode m.to_) <;>
    cases htext : jsTruthy m.content.text <;>
    cases hmd : jsTruthy m.content.markdown <;>
    cases hpid : jsTruthy m.parentId <;>
    rcases hf : m.content.files with _ | (_ | ⟨f, fs⟩) <;>
    rcases hc : m.content.card with _ | c <;>
    simp [buildMessageRequest, hat, hsw, hroom, hppl, htext, hmd, hpid, hf, hc]

/-- With truthy markdown content, the built request's markdown field
carries it (overwriting any value derived from plain text). -/
lemma buildMessageRequest_markdown_of_markdown (m : OpenClawOutboundMessage)
    (h : jsTruthy m.content.markdown = true) :
    (buildMessageRequest m).markdown = m.content.markdown := by
  cases hat : strIncludes m.to_ "@" <;>
    cases hsw : jsStartsWith m.to_ "Y2lzY29zcGFyazovL3" <;>
    cases hroom : listIncludes (utf8Bytes "/ROOM/") (base64Decode m.to_) <;>
    cases hppl : listIncludes (utf8Bytes "/PEOPLE/") (base64Decode m.to_) <;>
    cases htext : jsTruthy m.content.text <;>
    cases hpid : jsTruthy m.parentId <;>
    rcases hf : m.content.files with _ | (_ | ⟨f, fs⟩) <;>
    rcases hc : m.content.card with _ | c <;>
    simp [buildMessageRequest, hat, hsw, hroom, hppl, htext, h, hpid, hf, hc]

/-- With falsy markdown content and truthy plain text, the built
request's markdown field carries the plain text. -/
lemma buildMessageRequest_markdown_of_text (m : OpenClawOutboundMessage)
    (hmd : jsTruthy m.content.markdown = false)
    (htext : jsTruthy m.content.text = true) :
    (buildMessageRequest m).markdown = m.content.text := by
  cases hat : strIncludes m.to_ "@" <;>
    cases hsw : jsStartsWith m.to_ "Y2lzY29zcGFyazovL3" <;>
    cases hroom : listIncludes (utf8Bytes "/ROOM/") (base64Decode m.to_) <;>
    cases hppl : listIncludes (utf8Bytes "/PEOPLE/") (base64Decode m.to_) <;>
    cases hpid : jsTruthy m.parentId <;>
    rcases hf : m.content.files with _ | (_ | ⟨f, fs⟩) <;>
    rcases hc : m.content.card with _ | c <;>
    simp [buildMessageRequest, hat, hsw, hroom, hppl, htext, hmd, hpid, hf, hc]

/-- Target fields of the built request, as one bundled description of
the disambiguation if-tree. -/
lemma buildMessageRequest_target_fields (m : OpenClawOutboundMessage) :
    (buildMessageRequest m).toPersonEmail =
      (if strIncludes m.to_ "@" then some m.to_ else none) ∧
    (buildMessageRequest m).toPersonId =
      (if strIncludes m.to_ "@" then none
       else if jsStartsWith m.to_ "Y2lzY29zcGFyazovL3" then
         if listIncludes (utf8Bytes "/ROOM/") (base64Decode m.to_) then none
         else if listIncludes (utf8Bytes "/PEOPLE/") (base64Decode m.to_) then some m.to_
         else none
       else none) ∧
    (buildMessageRequest m).roomId =
      (if strIncludes m.to_ "@" then none
       else if jsStartsWith m.to_ "Y2lzY29zcGFyazovL3" then
         if listIncludes (utf8Bytes "/ROOM/") (base64Decode m.to_) then some m.to_
         else if listIncludes (utf8Bytes "/PEOPLE/") (base64Decode m.to_) then none
         else some m.to_
       else some m.to_) := by
  cases hat : strIncludes m.to_ "@" <;>
    cases hsw : jsStartsWith m.to_ "Y2lzY29zcGFyazovL3" <;>
    cases hroom : listIncludes (utf8Bytes "/ROOM/") (base64Decode m.to_) <;>
    cases hppl : listIncludes (utf8Bytes "/PEOPLE/") (base64Decode m.to_) <;>
    cases htext : jsTruthy m.content.text <;>
    cases hmd : jsTruthy m.content.markdown <;>
    cases hpid : jsTruthy m.parentId <;>
    rcases hf : m.content.files with _ | (_ | ⟨f, fs⟩) <;>
    rcases hc : m.content.card with _ | c <;>
    simp [buildMessageRequest, hat, hsw, hroom, hppl, htext, hmd, hpid, hf, hc]

end BuildLemmas

/-- Success on the current call ends the retry loop with that result. -/
lemma requestGo_of_ok {α : Type} (exec : Nat → Except SenderError α)
    (M attempt calls : Nat) (a : α) (h : exec calls = .ok a) :
    requestGo exec M attempt calls = (.ok a, calls + 1) := by
  unfold requestGo
  simp only [h]

/-- A non-retryable failure on the current call ends the retry loop with
that error after this single call. -/
lemma requestGo_of_error_stop {α : Type} (exec : Nat → Except SenderError α)
    (M attempt calls : Nat) (e : SenderError) (h : exec calls = .error e)
    (hr : shouldRetry e = false) :
    requestGo exec M attempt calls = (.error e, calls + 1) := by
  unfold requestGo
  simp only [h, hr]
  split
  · rfl
  · simp

/-- A retryable failure within budget recurses with both counters
advanced. -/
lemma requestGo_of_error_retry {α : Type} (exec : Nat → Except SenderError α)
    (M attempt calls : Nat) (e : SenderError) (h : exec calls = .error e)
    (hb : attempt + 1 ≤ M) (hr : shouldRetry e = true) :
    requestGo exec M attempt calls = requestGo exec M (attempt + 1) (calls + 1) := by
  conv_lhs => unfold requestGo
  simp only [h, hr]
  rw [dif_neg (by omega)]
  simp

/-- A failure that exhausts the budget ends the retry loop with that
error. -/
lemma requestGo_of_error_exhausted {α : Type} (exec : Nat → Except SenderError α)
    (M attempt calls : Nat) (e : SenderError) (h : exec calls = .error e)
    (hb : attempt + 1 > M) :
    requestGo exec M attempt calls = (.error e, calls + 1) := by
  unfold requestGo
  simp only [h]
  rw [dif_pos hb]

/-- Generalized success form of the retry-count property: k retryable
failures beginning at call index calls, then a success, all within the
remaining budget. -/
lemma requestGo_succeeds {α : Type} (exec : Nat → Except SenderError α)
    (errs : Nat → SenderError) (a : α) (M : Nat) :
    ∀ (k attempt calls : Nat), attempt + k ≤ M →
      (∀ i, i < k → exec (calls + i) = .error (errs (calls + i))) →
      (∀ i, i < k → shouldRetry (errs (calls + i)) = true) →
      exec (calls + k) = .ok a →
      requestGo exec M attempt calls = (.ok a, calls + k + 1) := by
  intro k
  induction k with
  | zero =>
      intro attempt calls _ _ _ hsucc
      simpa using requestGo_of_ok exec M attempt calls a (by simpa using hsucc)
  | succ k ih =>
      intro attempt calls hbudget hfail hretry hsucc
      have h0 : exec calls = .error (errs calls) := by simpa using hfail 0 (by omega)
      have hr0 : shouldRetry (errs calls) = true := by simpa using hretry 0 (by omega)
      rw [requestGo_of_error_retry exec M attempt calls _ h0 (by omega) hr0]
      have := ih (attempt + 1) (calls + 1) (by omega)
        (fun i hi => by
          have := hfail (i + 1) (by omega)
          simpa [Nat.add_assoc, Nat.add_comm 1 i] using this)
        (fun i hi => by
          have := hretry (i + 1) (by omega)
          simpa [Nat.add_assoc, Nat.add_comm 1 i] using this)
        (by
          have : calls + 1 + k = calls + (k + 1) := by omega
          rw [this]
          exact hsucc)
      rw [this]
      congr 1
      omega

/-- Generalized exhaustion form of the retry-count property: retryable
failures on every remaining call exhaust the budget; the error of the
last call is surfaced. -/
lemma requestGo_exhausts {α : Type} (exec : Nat → Except SenderError α)
    (errs : Nat → SenderError) (M : Nat) :
    ∀ (j attempt calls : Nat), attempt + j = M →
      (∀ i, i ≤ j → exec (calls + i) = .error (errs (calls + i))) →
      (∀ i, i < j → shouldRetry (errs (calls + i)) = true) →
      requestGo exec M attempt calls = (.error (errs (calls + j)), calls + j + 1) := by
  intro j
  induction j with
  | zero =>
      intro attempt calls hM hfail _
      have h0 : exec calls = .error (errs calls) := by simpa using hfail 0 (by omega)
      simpa using requestGo_of_error_exhausted exec M attempt calls _ h0 (by omega)
  | succ j ih =>
      intro attempt calls hM hfail hretry
      have h0 : exec calls = .error (errs calls) := by simpa using hfail 0 (by omega)
      have hr0 : shouldRetry (errs calls) = true := by simpa using hretry 0 (by omega)
      rw [requestGo_of_error_retry exec M attempt calls _ h0 (by omega) hr0]
      have := ih (attempt + 1) (calls + 1) (by omega)
        (fun i hi => by
          have := hfail (i + 1) (by omega)
          simpa [Nat.add_assoc, Nat.add_comm 1 i] using this)
        (fun i hi => by
          have := hretry (i + 1) (by omega)
          simpa [Nat.add_assoc, Nat.add_comm 1 i] using this)
      rw [this]
      have h1 : calls + 1 + j = calls + (j + 1) := by omega
      rw [h1]

/-! ### Claim theorems -/

/-- Claim C10: for every outbound message built by send, the provider
request's text field is never populated; plain-text content from
content.text is placed in the request's markdown field, and when both
content.text and content.markdown are supplied (truthy), content.markdown
overwrites the value derived from content.text, so only the markdown
value is sent. -/
theorem claim_C10_text_never_populated (m : OpenClawOutboundMessage) :
    (buildMessageRequest m).text = none ∧
    (jsTruthy m.content.markdown = true →
       (buildMessageRequest m).markdown = m.content.markdown) ∧
    (jsTruthy m.content.markdown = false → jsTruthy m.content.text = true →
       (buildMessageRequest m).markdown = m.content.text) :=
  ⟨buildMessageRequest_text_none m,
   fun h => buildMessageRequest_markdown_of_markdown m h,
   fun hmd htext => buildMessageRequest_markdown_of_text m hmd htext⟩

/-- Witness for claim C10 at a message carrying both content fields. -/
theorem claim_C10_witness :
    (buildMessageRequest
        { to_ := "room-1", content := { text := some "plain", markdown := some "rich" } }).text
      = none ∧
    (buildMessageRequest
        { to_ := "room-1", content := { text := some "plain", markdown := some "rich" } }).markdown
      = some "rich" := by
  refine ⟨(claim_C10_text_never_populated _).1, ?_⟩
  exact (claim_C10_text_never_populated
    { to_ := "room-1", content := { text := some "plain", markdown := some "rich" } }).2.1
    (by decide)

/-- Call count of the retry loop is at least one more than the calls
already made. -/
lemma requestGo_snd_ge {α : Type} (exec : Nat → Except SenderError α) (M : Nat) :
    ∀ (fuel attempt calls : Nat), M - attempt = fuel →
      calls + 1 ≤ (requestGo exec M attempt calls).2 := by
  intro fuel
  induction fuel with
  | zero =>
      intro attempt calls hfuel
      unfold requestGo
      cases hexec : exec calls with
      | ok a => simp
      | error e =>
          simp only
          rw [dif_pos (by omega)]
  | succ fuel ih =>
      intro attempt calls hfuel
      unfold requestGo
      cases hexec : exec calls with
      | ok a => simp
      | error e =>
          simp only
          split
          · simp
          · split
            · have := ih (attempt + 1) (calls + 1) (by omega)
              omega
            · simp

/-- Claim C4: with maxRetries = M, N consecutive transient failures
followed by a success yield N + 1 executor calls and overall success when
N ≤ M; more than M consecutive transient failures yield exactly M + 1
executor calls, surfacing the error of the last call. -/
theorem claim_C4_retry_count {α : Type} (M N : Nat)
    (exec : Nat → Except SenderError α) (errs : Nat → SenderError) (a : α)
    (hfail : ∀ i, i < N → exec i = .error (errs i))
    (hretry : ∀ i, i < N → shouldRetry (errs i) = true)
    (hsucc : exec N = .ok a) :
    (N ≤ M → request exec M = (.ok a, N + 1)) ∧
    (M < N → request exec M = (.error (errs M), M + 1)) := by
  constructor
  · intro hNM
    have := requestGo_succeeds exec errs a M N 0 0 (by omega)
      (fun i hi => by simpa using hfail i hi)
      (fun i hi => by simpa using hretry i hi)
      (by simpa using hsucc)
    simpa [request] using this
  · intro hMN
    have := requestGo_exhausts exec errs M M 0 0 (by omega)
      (fun i hi => by simpa using hfail i (by omega))
      (fun i hi => by simpa using hretry i (by omega))
    simpa [request] using this

/-- Witness for claim C4: two transient failures within a budget of
three retries succeed on the third call; five transient failures against
the same budget exhaust it after four calls. -/
theorem claim_C4_witness :
    ((2 : Nat) ≤ 3 ∧ request flaky2Exec 3 = (.ok sampleMessage, 3)) ∧
    ((3 : Nat) < 5 ∧ request flaky5Exec 3 = (.error transientError, 4)) := by
  constructor
  · exact ⟨by decide,
      (claim_C4_retry_count 3 2 flaky2Exec (fun _ => transientError) sampleMessage
        (by decide) (by decide) (by decide)).1 (by decide)⟩
  · exact ⟨by decide,
      (claim_C4_retry_count 3 5 flaky5Exec (fun _ => transientError) sampleMessage
        (by decide) (by decide) (by decide)).2 (by decide)⟩

/-- Claim C5: a failed attempt is retried exactly when the error is a
typed API error with status in {429, 502, 503, 504} or a network-level
failure (ECONNRESET, ETIMEDOUT, ENOTFOUND in the message); any other
error is terminal, with exactly one executor call and the error surfaced
immediately, while a retryable first failure within budget leads to at
least a second call. -/
theorem claim_C5_retry_predicate :
    (∀ e, shouldRetry e = true ↔
       ((∃ s msg tid, e = .api s msg tid ∧ (s = 429 ∨ s = 502 ∨ s = 503 ∨ s = 504)) ∨
        (∃ msg, e = .generic msg ∧
           (strIncludes msg "ECONNRESET" = true ∨ strIncludes msg "ETIMEDOUT" = true ∨
            strIncludes msg "ENOTFOUND" = true)))) ∧
    (∀ (α : Type) (M : Nat) (exec : Nat → Except SenderError α) (e : SenderError),
       exec 0 = .error e → shouldRetry e = false →
         request exec M = (.error e, 1)) ∧
    (∀ (α : Type) (M : Nat) (exec : Nat → Except SenderError α) (e : SenderError),
       exec 0 = .error e → shouldRetry e = true → 1 ≤ M →
         2 ≤ (request exec M).2) := by
  refine ⟨?_, ?_, ?_⟩
  · intro e
    cases e with
    | api s msg tid =>
        simp only [shouldRetry, jsArrayIncludes, RETRY_STATUS_CODES]
        constructor
        · intro h
          left
          refine ⟨s, msg, tid, rfl, ?_⟩
          have := List.mem_of_elem_eq_true h
          simpa using this
        · rintro (⟨s2, msg2, tid2, heq, hs⟩ | ⟨msg2, heq, _⟩)
          · obtain ⟨rfl, rfl, rfl⟩ := SenderError.api.inj heq
            apply List.elem_eq_true_of_mem
            simpa using hs
          · exact absurd heq (by simp)
    | generic msg =>
        simp only [shouldRetry]
        constructor
        · intro h
          right
          refine ⟨msg, rfl, ?_⟩
          simp only [Bool.or_eq_true] at h
          tauto
        · rintro (⟨s2, msg2, tid2, heq, _⟩ | ⟨msg2, heq, hinc⟩)
          · exact absurd heq (by simp)
          · obtain rfl := SenderError.generic.inj heq
            simp only [Bool.or_eq_true]
            tauto
  · intro α M exec e hexec hterm
    have := requestGo_of_error_stop exec M 0 0 e hexec hterm
    simpa [request] using this
  · intro α M exec e hexec hret hM
    have hstep := requestGo_of_error_retry exec M 0 0 e hexec (by omega) hret
    rw [request, hstep]
    simpa using requestGo_snd_ge exec M (M - 1) 1 1 (by omega)

/-- Witness for claim C5: a 400 response is terminal after one call; a
429 response yields a retry. -/
theorem claim_C5_witness :
    (badRequestExec 0 = .error badRequestError ∧ shouldRetry badRequestError = false ∧
      request badRequestExec 3 = (.error badRequestError, 1)) ∧
    (flaky5Exec 0 = .error transientError ∧ shouldRetry transientError = true ∧
      2 ≤ (request flaky5Exec 3).2) := by
  constructor
  · exact ⟨by decide, by decide,
      claim_C5_retry_predicate.2.1 _ 3 badRequestExec badRequestError (by decide) (by decide)⟩
  · exact ⟨by decide, by decide,
      claim_C5_retry_predicate.2.2 _ 3 flaky5Exec transientError (by decide) (by decide) (by decide)⟩

/-- Claim C6: the backoff delay for 1-indexed attempt n equals
min(baseDelay * 2^(n-1) * (1 + jitter), 30000) for some jitter in
[0, 0.3); it never exceeds 30000 ms and is at least
baseDelay * 2^(n-1) up to the cap. Arithmetic is over the rationals,
with rand the Math.random() draw in [0, 1). -/
theorem claim_C6_backoff (base : ℚ) (n : Nat) (rand : ℚ)
    (hbase : 0 ≤ base) (hn : 1 ≤ n) (h0 : 0 ≤ rand) (h1 : rand < 1) :
    ∃ j : ℚ, 0 ≤ j ∧ j < 3 / 10 ∧
      calculateBackoff base n rand = min (base * 2 ^ (n - 1) * (1 + j)) 30000 ∧
      calculateBackoff base n rand ≤ 30000 ∧
      min (base * 2 ^ (n - 1)) 30000 ≤ calculateBackoff base n rand := by
  have hE : (0 : ℚ) ≤ base * 2 ^ (n - 1) := by positivity
  have hj0 : (0 : ℚ) ≤ rand * (3 / 10) := by positivity
  refine ⟨rand * (3 / 10), hj0, ?_, ?_, ?_, ?_⟩
  · have := mul_lt_mul_of_pos_right h1 (by norm_num : (0 : ℚ) < 3 / 10)
    simpa using this
  · simp only [calculateBackoff]
    congr 1
    ring
  · simp only [calculateBackoff]
    exact min_le_right _ _
  · simp only [calculateBackoff]
    refine min_le_min ?_ le_rfl
    have hjit : (0 : ℚ) ≤ rand * (3 / 10) * (base * 2 ^ (n - 1)) :=
      mul_nonneg hj0 hE
    nlinarith [hjit]

/-- Witness for claim C6 at base delay 1000, attempt 2 and a random draw
of one half. -/
theorem claim_C6_witness :
    (0 : ℚ) ≤ 1000 ∧ (1 : Nat) ≤ 2 ∧ (0 : ℚ) ≤ 1 / 2 ∧ (1 / 2 : ℚ) < 1 ∧
    ∃ j : ℚ, 0 ≤ j ∧ j < 3 / 10 ∧
      calculateBackoff 1000 2 (1 / 2) = min (1000 * 2 ^ (2 - 1) * (1 + j)) 30000 ∧
      calculateBackoff 1000 2 (1 / 2) ≤ 30000 ∧
      min ((1000 : ℚ) * 2 ^ (2 - 1)) 30000 ≤ calculateBackoff 1000 2 (1 / 2) :=
  ⟨by norm_num, by norm_num, by norm_num, by norm_num,
   claim_C6_backoff 1000 2 (1 / 2) (by norm_num) (by norm_num) (by norm_num) (by norm_num)⟩

/-- Claim C7: the built provider request targets person-by-email exactly
when the target contains an at-sign; otherwise, a target bearing the
opaque-identifier prefix is base64-decoded and a decoding containing the
room-class segment yields a room target, one containing the person-class
segment (and not the room-class segment) yields a person-by-id target,
and an unrecognized class defaults to a room target (decode failure
cannot occur, as Node base64 decoding is total); all other targets are
used verbatim as a room identifier. -/
theorem claim_C7_target_disambiguation (m : OpenClawOutboundMessage) :
    (strIncludes m.to_ "@" = true →
       (buildMessageRequest m).toPersonEmail = some m.to_ ∧
       (buildMessageRequest m).roomId = none ∧
       (buildMessageRequest m).toPersonId = none) ∧
    (strIncludes m.to_ "@" = false → jsStartsWith m.to_ "Y2lzY29zcGFyazovL3" = true →
       (listIncludes (utf8Bytes "/ROOM/") (base64Decode m.to_) = true →
          (buildMessageRequest m).roomId = some m.to_ ∧
          (buildMessageRequest m).toPersonId = none ∧
          (buildMessageRequest m).toPersonEmail = none) ∧
       (listIncludes (utf8Bytes "/ROOM/") (base64Decode m.to_) = false →
        listIncludes (utf8Bytes "/PEOPLE/") (base64Decode m.to_) = true →
          (buildMessageRequest m).toPersonId = some m.to_ ∧
          (buildMessageRequest m).roomId = none ∧
          (buildMessageRequest m).toPersonEmail = none) ∧
       (listIncludes (utf8Bytes "/ROOM/") (base64Decode m.to_) = false →
        listIncludes (utf8Bytes "/PEOPLE/") (base64Decode m.to_) = false →
          (buildMessageRequest m).roomId = some m.to_ ∧
          (buildMessageRequest m).toPersonId = none ∧
          (buildMessageRequest m).toPersonEmail = none)) ∧
    (strIncludes m.to_ "@" = false → jsStartsWith m.to_ "Y2lzY29zcGFyazovL3" = false →
       (buildMessageRequest m).roomId = some m.to_ ∧
       (buildMessageRequest m).toPersonId = none ∧
       (buildMessageRequest m).toPersonEmail = none) := by
  obtain ⟨he, hp, hr⟩ := buildMessageRequest_target_fields m
  refine ⟨fun h1 => ?_, fun h1 h2 => ⟨fun h3 => ?_, fun h3 h4 => ?_, fun h3 h4 => ?_⟩,
    fun h1 h2 => ?_⟩ <;> rw [he, hp, hr]
  · simp [h1]
  · simp [h1, h2, h3]
  · simp [h1, h2, h3, h4]
  · simp [h1, h2, h3, h4]
  · simp [h1, h2]

/-- Witness for claim C7 across the four concrete target shapes: email,
opaque room identifier, opaque person identifier, opaque identifier of
another class, plain room string. -/
theorem claim_C7_witness :
    (buildMessageRequest emailTargetMessage).toPersonEmail = some "user@example.com" ∧
    (buildMessageRequest roomOpaqueMessage).roomId = some roomIdB64 ∧
    (buildMessageRequest peopleOpaqueMessage).toPersonId = some peopleIdB64 ∧
    (buildMessageRequest otherOpaqueMessage).roomId = some otherIdB64 ∧
    (buildMessageRequest plainTargetMessage).roomId = some "room-99" := by
  refine ⟨?_, ?_, ?_, ?_, ?_⟩
  · exact ((claim_C7_target_disambiguation emailTargetMessage).1 (by decide)).1
  · exact (((claim_C7_target_disambiguation roomOpaqueMessage).2.1 (by decide)
      (by decide)).1 (by decide)).1
  · exact (((claim_C7_target_disambiguation peopleOpaqueMessage).2.1 (by decide)
      (by decide)).2.1 (by decide) (by decide)).1
  · exact (((claim_C7_target_disambiguation otherOpaqueMessage).2.1 (by decide)
      (by decide)).2.2 (by decide) (by decide)).1
  · exact ((claim_C7_target_disambiguation plainTargetMessage).2.2 (by decide)
      (by decide)).1

/-- Claim C3 counterexample: a message whose plain-text content is 7440
UTF-8 bytes passes validation (no local validation error) and one
provider-API call is made, because the text is sent as markdown, which is
not length-checked. This refutes the claim that such a send fails
validation with zero network calls. -/
theorem claim_C3_counterexample :
    bufferByteLength longText = 7440 ∧
    validateMessageRequest (buildMessageRequest oversizedMessage) = .ok () ∧
    send oversizedMessage 3 okExec = (.ok sampleMessage, 1) := by
  have hlen : bufferByteLength longText = 7440 := by
    simp only [bufferByteLength, utf8Bytes, longText]
    exact utf8BytesAux_replicate 7440 'a' (by decide)
  have htne : longText ≠ "" := by
    intro hcontr
    rw [hcontr] at hlen
    simp [bufferByteLength, utf8Bytes, utf8BytesAux] at hlen
  have h1 : strIncludes "room-1" "@" = false := by decide
  have h2 : jsStartsWith "room-1" "Y2lzY29zcGFyazovL3" = false := by decide
  have hbuild : buildMessageRequest oversizedMessage =
      { roomId := some "room-1", markdown := some longText } := by
    simp [buildMessageRequest, oversizedMessage, h1, h2, jsTruthy, htne]
  have hval : validateMessageRequest (buildMessageRequest oversizedMessage) = .ok () := by
    rw [hbuild]
    simp [validateMessageRequest, jsTruthy, jsLenTruthy, htne]
  refine ⟨hlen, hval, ?_⟩
  show createMessage (buildMessageRequest oversizedMessage) 3 okExec = (.ok sampleMessage, 1)
  rw [createMessage, hval]
  simpa [request] using requestGo_of_ok okExec 3 0 0 sampleMessage rfl

/-- Claim C3 as amended: the send path never raises the 7439-byte text
validation error, because built requests carry plain text in the
markdown field and leave the text field empty; the byte-limit check
applies only to requests whose text field is populated (as built by the
sendToRoom helper), which fail validation with zero executor calls. -/
theorem claim_C3_amended :
    (∀ m : OpenClawOutboundMessage,
       validateMessageRequest (buildMessageRequest m) ≠
         .error "Message text exceeds maximum size of 7439 bytes") ∧
    (∀ (roomId text : String) (md : Option String) (M : Nat)
       (exec : Nat → Except SenderError WebexMessage),
       roomId ≠ "" → bufferByteLength text > 7439 →
       createMessage (sendToRoomRequest roomId text md) M exec =
         (.error (.generic "Message text exceeds maximum size of 7439 bytes"), 0)) := by
  constructor
  · intro m hcontr
    have htext := buildMessageRequest_text_none m
    unfold validateMessageRequest at hcontr
    rw [htext] at hcontr
    simp only [jsTruthy] at hcontr
    split at hcontr
    · simp at hcontr
    · split at hcontr
      · simp at hcontr
      · split at hcontr
        · simp_all
        · exact absurd hcontr (by simp)
  · intro roomId text md M exec hroom hlen
    have htne : text ≠ "" := by
      intro hcontr
      rw [hcontr] at hlen
      simp [bufferByteLength, utf8Bytes, utf8BytesAux] at hlen
    have hd : decide (bufferByteLength text > 7439) = true := decide_eq_true hlen
    rw [createMessage]
    have hval : validateMessageRequest (sendToRoomRequest roomId text md) =
        .error "Message text exceeds maximum size of 7439 bytes" := by
      simp [validateMessageRequest, sendToRoomRequest, jsTruthy, htne, hroom, hd]
    rw [hval]

/-- Witness for the amended claim C3: the room helper with the 7440-byte
text fails validation with zero executor calls. -/
theorem claim_C3_witness :
    ("room-123" : String) ≠ "" ∧ bufferByteLength longText > 7439 ∧
    createMessage (sendToRoomRequest "room-123" longText none) 3 okExec =
      (.error (.generic "Message text exceeds maximum size of 7439 bytes"), 0) := by
  have hlen : bufferByteLength longText = 7440 := by
    simp only [bufferByteLength, utf8Bytes, longText]
    exact utf8BytesAux_replicate 7440 'a' (by decide)
  exact ⟨by decide, by omega,
    claim_C3_amended.2 "room-123" longText none 3 okExec (by decide) (by omega)⟩

/-- Claim C2 counterexample: with a configured secret, a supplied
signature of five bytes (differing from the forty-byte hex HMAC-SHA1
digest) makes verifySignature throw the RangeError of
crypto.timingSafeEqual rather than return false. -/
theorem claim_C2_counterexample :
    verifySignature cfgSecret (utf8Bytes "{}") "short" none = .error .rangeError ∧
    verifySignature cfgSecret (utf8Bytes "{}") "short" none ≠ .ok false := by
  have h5 : (utf8Bytes "short").length = 5 := by decide
  have h40 := expectedSignature_length (utf8Bytes "test-secret") (utf8Bytes "{}")
  have hver : verifySignature cfgSecret (utf8Bytes "{}") "short" none = .error .rangeError := by
    simp [verifySignature, cfgSecret, timingSafeEqual, h5, h40]
  exact ⟨hver, by rw [hver]; exact fun hcontr => Except.noConfusion hcontr⟩

/-- Claim C2 as amended: with a configured non-empty secret and a
supplied signature whose UTF-8 byte length differs from the forty bytes
of the hex-encoded HMAC-SHA1 digest, verifySignature raises the
RangeError of crypto.timingSafeEqual, which escapes to the caller; the
mismatch never silently passes, but it surfaces as an exception instead
of the value false. -/
theorem claim_C2_amended (cfg : WebexChannelConfig) (secret : String)
    (payloadJson : List Nat) (signature : String) (originalBody : Option (List Nat))
    (hsec : cfg.webhookSecret = some secret) (hne : secret ≠ "")
    (hlen : (utf8Bytes signature).length ≠ 40) :
    verifySignature cfg payloadJson signature originalBody = .error .rangeError := by
  have h40 := expectedSignature_length (utf8Bytes secret) (originalBody.getD payloadJson)
  simp [verifySignature, hsec, hne, timingSafeEqual, h40, hlen]

/-- Witness for the amended claim C2 at a three-byte signature. -/
theorem claim_C2_witness :
    cfgSecret.webhookSecret = some "test-secret" ∧ ("test-secret" : String) ≠ "" ∧
    (utf8Bytes "bad").length ≠ 40 ∧
    verifySignature cfgSecret [] "bad" none = .error .rangeError :=
  ⟨rfl, by decide, by decide,
   claim_C2_amended cfgSecret "test-secret" [] "bad" none rfl (by decide) (by decide)⟩

/-- Claim C8: for accepted messages/created notifications not sent by
the bot itself, a direct conversation is governed by the DM policy —
allow proceeds to enrichment and normalization, deny yields null,
allowlisted proceeds exactly when the sender's person id or email is
contained in a non-empty allow-list and yields null otherwise (an empty
or absent list always denies) — while any non-direct conversation
bypasses the policy check entirely, its outcome not depending on the
configured policy. -/
theorem claim_C8_dm_policy (cfg : WebexChannelConfig) (botId : Option String)
    (fetchMessage : String → Except String WebexMessage) (payload : WebexWebhookPayload)
    (hres : payload.resource = .messages) (hev : payload.event = .created)
    (hbot : some payload.data.personId ≠ botId) :
    (payload.data.roomType = .direct →
       (cfg.dmPolicy = .allow →
          handleWebhook cfg botId fetchMessage payload =
            (fetchMessage payload.data.id).map (fun msg => some (normalizeMessage msg))) ∧
       (cfg.dmPolicy = .deny →
          handleWebhook cfg botId fetchMessage payload = .ok none) ∧
       (cfg.dmPolicy = .allowlisted →
          ((cfg.allowFrom.getD []).length = 0 →
             handleWebhook cfg botId fetchMessage payload = .ok none) ∧
          (∀ allowFrom, cfg.allowFrom = some allowFrom → allowFrom.length ≠ 0 →
             (jsArrayIncludes allowFrom payload.data.personId ||
              jsArrayIncludes allowFrom payload.data.personEmail) = true →
               handleWebhook cfg botId fetchMessage payload =
                 (fetchMessage payload.data.id).map (fun msg => some (normalizeMessage msg))) ∧
          (∀ allowFrom, cfg.allowFrom = some allowFrom →
             (jsArrayIncludes allowFrom payload.data.personId ||
              jsArrayIncludes allowFrom payload.data.personEmail) = false →
               handleWebhook cfg botId fetchMessage payload = .ok none))) ∧
    (payload.data.roomType ≠ .direct →
       handleWebhook cfg botId fetchMessage payload =
         (fetchMessage payload.data.id).map (fun msg => some (normalizeMessage msg))) := by
  have hw : handleWebhook cfg botId fetchMessage payload =
      if payload.data.roomType = RoomType.direct ∧ ¬ isAllowedSender cfg payload.data
      then .ok none
      else (fetchMessage payload.data.id).map (fun msg => some (normalizeMessage msg)) := by
    unfold handleWebhook
    rw [if_neg (by simp [hres, hev]), if_neg hbot]
    split
    · rfl
    · cases hf : fetchMessage payload.data.id <;> simp [hf, Except.map]
  constructor
  · intro hdir
    refine ⟨fun hpol => ?_, fun hpol => ?_,
      fun hpol => ⟨fun hemp => ?_, fun allowFrom hl hlne hmem => ?_,
        fun allowFrom hl hmem => ?_⟩⟩
    · rw [hw, if_neg (by simp [isAllowedSender, hpol])]
    · rw [hw, if_pos ⟨hdir, by simp [isAllowedSender, hpol]⟩]
    · rcases haf : cfg.allowFrom with _ | l
      · rw [hw, if_pos ⟨hdir, by simp [isAllowedSender, hpol, haf]⟩]
      · rw [haf] at hemp
        simp only [Option.getD] at hemp
        rw [hw, if_pos ⟨hdir, by simp [isAllowedSender, hpol, haf, hemp]⟩]
    · rw [hw, if_neg]
      simp only [isAllowedSender, hpol, hl]
      rw [if_neg hlne, hmem]
      simp
    · rw [hw, if_pos]
      refine ⟨hdir, ?_⟩
      simp only [isAllowedSender, hpol, hl]
      split
      · simp
      · rw [hmem]
        simp
  · intro hnd
    rw [hw, if_neg (by simp [hnd])]

/-- Witness for claim C8 across the policy matrix on the sample direct
and group notifications. -/
theorem claim_C8_witness :
    handleWebhook cfgSecret (some "bot-123") sampleFetch directPayload =
      .ok (some (normalizeMessage sampleMessage)) ∧
    handleWebhook cfgDeny (some "bot-123") sampleFetch directPayload = .ok none ∧
    handleWebhook cfgAllowlistedEmpty (some "bot-123") sampleFetch directPayload =
      .ok none ∧
    handleWebhook cfgAllowlisted (some "bot-123") sampleFetch directPayload =
      .ok (some (normalizeMessage sampleMessage)) ∧
    handleWebhook cfgDeny (some "bot-123") sampleFetch samplePayload =
      .ok (some (normalizeMessage sampleMessage)) := by
  refine ⟨?_, ?_, ?_, ?_, ?_⟩
  · exact ((claim_C8_dm_policy cfgSecret (some "bot-123") sampleFetch directPayload
      rfl rfl (by decide)).1 rfl).1 rfl
  · exact ((claim_C8_dm_policy cfgDeny (some "bot-123") sampleFetch directPayload
      rfl rfl (by decide)).1 rfl).2.1 rfl
  · exact (((claim_C8_dm_policy cfgAllowlistedEmpty (some "bot-123") sampleFetch
      directPayload rfl rfl (by decide)).1 rfl).2.2 rfl).1 (by decide)
  · exact (((claim_C8_dm_policy cfgAllowlisted (some "bot-123") sampleFetch
      directPayload rfl rfl (by decide)).1 rfl).2.2 rfl).2.1
      ["person-123"] rfl (by decide) (by decide)
  · exact (claim_C8_dm_policy cfgDeny (some "bot-123") sampleFetch samplePayload
      rfl rfl (by decide)).2 (by decide)

/-- Subscribers invoked by a successful channel webhook dispatch are the
state's registered handlers or nothing. -/
lemma channelHandleWebhook_notified {H : Type} (st : WebexChannelState H)
    (payload : WebexWebhookPayload) (sig : Option String)
    (fetch : String → Except String WebexMessage)
    (result : Option OpenClawEnvelope × List H)
    (h : channelHandleWebhook st payload sig fetch = .ok result) :
    result.2 = st.messageHandlers ∨ result.2 = [] := by
  unfold channelHandleWebhook at h
  split at h
  · split at h
    · split at h
      · exact absurd h (by simp)
      · obtain rfl := Except.ok.inj h
        left
        rfl
      · obtain rfl := Except.ok.inj h
        right
        rfl
    · exact absurd h (by simp)
  · exact absurd h (by simp)

/-- Claim C9: every operational method (send, handleWebhook,
registerWebhooks, getSender, getWebhookHandler) fails immediately with
the not-initialized error while the channel is uninitialized; shutdown
clears the subscriber list, drops the sender, webhook handler and
config, returning exactly the uninitialized initial state; and after a
shutdown followed by a successful re-initialization, the subscriber list
is empty, so a webhook handled in that state invokes no subscriber — in
particular none registered before the shutdown. -/
theorem claim_C9_lifecycle (H : Type) :
    (∀ (st : WebexChannelState H) (m : OpenClawOutboundMessage)
       (exec : Nat → Except SenderError WebexMessage)
       (payload : WebexWebhookPayload) (sig : Option String)
       (fetch : String → Except String WebexMessage)
       (run : Except String (List String)),
       ensureInitialized st = false →
         channelSend st m exec = .error notInitializedMsg ∧
         channelHandleWebhook st payload sig fetch = .error notInitializedMsg ∧
         channelRegisterWebhooks st run = .error notInitializedMsg ∧
         getSender st = .error notInitializedMsg ∧
         getWebhookHandler st = .error notInitializedMsg) ∧
    (∀ st : WebexChannelState H,
       shutdownChannel st = ({} : WebexChannelState H) ∧
       ensureInitialized (shutdownChannel st) = false) ∧
    (∀ (st : WebexChannelState H) (isValidUrl : String → Bool)
       (getBotInfo : Except String String) (cfg : WebexChannelConfig)
       (st' : WebexChannelState H),
       initializeChannel isValidUrl getBotInfo (shutdownChannel st) cfg = (st', none) →
         st'.messageHandlers = [] ∧
         (∀ (payload : WebexWebhookPayload) (sig : Option String)
            (fetch : String → Except String WebexMessage)
            (result : Option OpenClawEnvelope × List H),
            channelHandleWebhook st' payload sig fetch = .ok result →
              result.2 = [])) := by
  refine ⟨?_, ?_, ?_⟩
  · intro st m exec payload sig fetch run h
    refine ⟨?_, ?_, ?_, ?_, ?_⟩ <;>
      simp [channelSend, channelHandleWebhook, channelRegisterWebhooks,
        getSender, getWebhookHandler, h]
  · intro st
    exact ⟨rfl, rfl⟩
  · intro st isValidUrl getBotInfo cfg st' hinit
    have hmh : st'.messageHandlers = [] := by
      unfold initializeChannel at hinit
      rcases hval : validateConfig isValidUrl cfg with e | u
      · rw [hval] at hinit
        exact absurd (congrArg Prod.snd hinit) (by simp)
      · rw [hval] at hinit
        rcases hgb : getBotInfo with e | botId
        · rw [hgb] at hinit
          exact absurd (congrArg Prod.snd hinit) (by simp)
        · rw [hgb] at hinit
          have hst := congrArg Prod.fst hinit
          simp only at hst
          rw [← hst]
          rfl
    refine ⟨hmh, ?_⟩
    intro payload sig fetch result hres
    rcases channelHandleWebhook_notified st' payload sig fetch result hres with h | h
    · rw [h, hmh]
    · exact h

/-- Witness for claim C9: the fresh state rejects all operations; the
shutdown of a state carrying a subscriber followed by re-initialization
yields an empty subscriber list. -/
theorem claim_C9_witness :
    ensureInitialized ({} : WebexChannelState Nat) = false ∧
    channelSend ({} : WebexChannelState Nat) plainTargetMessage okExec =
      .error notInitializedMsg ∧
    channelHandleWebhook ({} : WebexChannelState Nat) samplePayload none sampleFetch =
      .error notInitializedMsg ∧
    channelRegisterWebhooks ({} : WebexChannelState Nat) (.ok []) =
      .error notInitializedMsg ∧
    getSender ({} : WebexChannelState Nat) = .error notInitializedMsg ∧
    getWebhookHandler ({} : WebexChannelState Nat) = .error notInitializedMsg ∧
    (initializeChannel (fun _ => true) (.ok "bot-123")
       (shutdownChannel stWithSub) cfgSecret).1.messageHandlers = [] := by
  have h1 := (claim_C9_lifecycle Nat).1 ({} : WebexChannelState Nat) plainTargetMessage
    okExec samplePayload none sampleFetch (.ok []) rfl
  have h3 := (claim_C9_lifecycle Nat).2.2 stWithSub (fun _ => true) (.ok "bot-123")
    cfgSecret
    (initializeChannel (fun _ => true) (.ok "bot-123")
      (shutdownChannel stWithSub) cfgSecret).1 rfl
  exact ⟨rfl, h1.1, h1.2.1, h1.2.2.1, h1.2.2.2.1, h1.2.2.2.2, h3.1⟩

/-- Claim C1 (code bug): the channel forwards the supplied webhook
signature, but the handler's parameter list does not receive it, so the
result never depends on the signature; with a secret configured and the
invalid signature deadbeef supplied — which the signature verifier, had
it been consulted, would reject — processing still completes and
produces an envelope instead of raising a validation error. -/
theorem claim_C1_signature_never_checked :
    (∀ sig sig' : Option String,
       channelHandleWebhook stReady samplePayload sig sampleFetch =
       channelHandleWebhook stReady samplePayload sig' sampleFetch) ∧
    (mergeDefaults cfgSecret).webhookSecret = some "test-secret" ∧
    verifySignature (mergeDefaults cfgSecret) (utf8Bytes "{}") "deadbeef" none =
      .error .rangeError ∧
    channelHandleWebhook stReady samplePayload (some "deadbeef") sampleFetch =
      .ok (some (normalizeMessage sampleMessage), []) := by
  refine ⟨fun sig sig' => rfl, rfl, ?_, ?_⟩
  · have h8 : (utf8Bytes "deadbeef").length = 8 := by decide
    have h40 := expectedSignature_length (utf8Bytes "test-secret") (utf8Bytes "{}")
    simp [verifySignature, mergeDefaults, cfgSecret, timingSafeEqual, h8, h40]
  · rfl

end OpenClawWebex
